import Mathlib

/-!
# Verification of the beam-bot historical-data synchronization engine

Shallow embedding of the Rust synchronization engine
(`src/use_cases/exchanges/sync_all_historycal_data.rs`), its domain types
(`src/domain/...`) and the token-bucket rate limiter
(`src/infrastructure/adapters/rate_limiter.rs`).

Modelling conventions:
* `chrono::DateTime<Utc>` timestamps and `chrono::Duration` values are
  integers (epoch milliseconds);
* fallible collaborator calls (the exchange adapter, the klines repository,
  the trading-pair repository, the pub/sub transport) are passed in as
  explicit `Except` outcomes, one per call site, gathered in environment
  records;
* the observable effects of a task (returned `Result`, the trading pair
  handed to the registry save, the publish attempts, the number of
  `completed_tasks` increments) are gathered in a `TaskEffects` record;
* `rust_decimal::Decimal` metadata fields become `Rat`, `f64` price fields
  become `Float`; neither is read by the engine control flow.
-/

namespace BeamBot

/-- `domain::ports::binance_adapter::Kline`.  `open_time` / `close_time` are
epoch milliseconds (`i64` in the source); the source field `open` is named
`open_price` here because `open` is a Lean keyword. -/
structure Kline where
  platform : String
  interval : String
  symbol : String
  open_time : Int
  close_time : Int
  open_price : Float
  high : Float
  low : Float
  close : Float
  volume : Float
  quote_asset_volume : Float
  taker_buy_base_asset_volume : Float
  taker_buy_quote_asset_volume : Float
  number_of_trades : Nat

/-- `domain::ports::binance_adapter::BinanceError`. -/
inductive BinanceError where
  | RequestError (msg : String)
  | ParseError (msg : String)
  | InvalidInterval (msg : String)
deriving DecidableEq

/-- `domain::ports::klines_repository::KlinesRepositoryError`. -/
inductive KlinesRepositoryError where
  | DatabaseError (msg : String)
deriving DecidableEq

/-- The `Display` rendering of `KlinesRepositoryError` (used when the engine
wraps a store failure into a `BinanceError::RequestError`). -/
def KlinesRepositoryError.display : KlinesRepositoryError → String
  | .DatabaseError msg => "Database error: " ++ msg

/-- `domain::trading_pairs::trading_pair::TradingPair`.  The two optional
timestamps `sync_start_time` / `sync_end_time` are the per-instrument sync
watermark. -/
structure TradingPair where
  id : Option Int
  symbol : String
  base_asset : String
  quote_asset : String
  min_price : Option Rat
  max_price : Option Rat
  tick_size : Option Rat
  min_qty : Option Rat
  max_qty : Option Rat
  step_size : Option Rat
  min_notional : Option Rat
  is_active : Bool
  status : String
  is_margin_trading : Bool
  is_spot_trading : Bool
  exchange_id : Int
  sync_start_time : Option Int
  sync_end_time : Option Int
deriving DecidableEq

/-- `IntervalConfig` from `sync_all_historycal_data.rs`: an interval label
paired with its lookback duration (milliseconds). -/
structure IntervalConfig where
  interval : String
  duration : Int
deriving DecidableEq

/-- `chrono::Duration::days` in epoch milliseconds. -/
def durationDays (d : Int) : Int := d * 86400000

/-- The interval table installed by `SyncAllHistoricalData::with_rate_limit`. -/
def default_intervals : List IntervalConfig :=
  [ { interval := "1m", duration := durationDays 30 },
    { interval := "1h", duration := durationDays 90 },
    { interval := "4h", duration := durationDays 90 },
    { interval := "1d", duration := durationDays 365 } ]

/-- `determine_sync_start_time` (lines 181-199 of
`sync_all_historycal_data.rs`).  `findResult` is the outcome of the
`trading_pair_repo.find_by_symbol(&pair.symbol)` call made in the body; the
boxed repository error is modelled as a `String`.  Mirrors the nested
`if let Ok(Some(latest_pair))` / `if let Some(latest_end_time)` /
`if latest_end_time > sync_start_time` chain. -/
def determine_sync_start_time (sync_end_time duration : Int)
    (findResult : Except String (Option TradingPair)) : Int :=
  let sync_start_time := sync_end_time - duration
  match findResult with
  | .ok (some latest_pair) =>
    match latest_pair.sync_end_time with
    | some latest_end_time =>
      if latest_end_time > sync_start_time then latest_end_time else sync_start_time
    | none => sync_start_time
  | .ok none => sync_start_time
  | .error _ => sync_start_time

/-- Outcomes of the four fallible collaborator calls made inside
`save_klines_and_update_pair`: the `repository.save_klines` write, the
`pub_sub.publish("klines:initialized", ...)` attempt, the
`trading_pair_repo.save` upsert and the
`pub_sub.publish("trading_pairs:initialized", ...)` attempt.  The two
publish outcomes and the registry-save outcome are only ever logged by the
engine on failure. -/
structure SaveEnv where
  save_klines_result : Except KlinesRepositoryError Unit
  publish_klines_result : Except String Unit
  save_pair_result : Except String Unit
  publish_pair_result : Except String Unit

/-- Payload of a publish attempt: either the JSON object with the symbol and
interval fields sent on "klines:initialized", or the full serialized trading
pair sent on "trading_pairs:initialized". -/
inductive Payload where
  | klinesMsg (symbol interval : String)
  | pairRecord (pair : TradingPair)
deriving DecidableEq

/-- Observable effects of one (instrument, interval) task: the returned
`Result`, the trading pair handed to `trading_pair_repo.save` (`none` when
the save call is never reached), whether that save succeeded, the publish
attempts in order (topic, payload), and how many times
`completed_tasks.fetch_add(1)` ran. -/
structure TaskEffects where
  result : Except BinanceError Unit
  saveAttempt : Option TradingPair
  saveOk : Bool
  published : List (String × Payload)
  completedDelta : Nat

/-- Whether a task's returned `Result` is an error (its future contributes to
the `errors` vector collected by `execute`). -/
def TaskEffects.failed (eff : TaskEffects) : Bool :=
  match eff.result with
  | .error _ => true
  | .ok _ => false

/-- The watermark computation of `save_klines_and_update_pair`
(lines 291-302): `updated_pair` as a function of the original pair, the
fetched klines and the computed window.  With at least one kline,
`sync_end_time := last.close_time` and `sync_start_time` is filled in only
when previously absent; with zero klines both fields are set to the window
bounds. -/
def updated_watermark_pair (pair : TradingPair) (klines : List Kline)
    (sync_start_time sync_end_time : Int) : TradingPair :=
  match klines.getLast? with
  | some last_kline =>
    let p := { pair with sync_end_time := some last_kline.close_time }
    if p.sync_start_time.isNone then
      { p with sync_start_time := some sync_start_time }
    else p
  | none =>
    { pair with
        sync_start_time := some sync_start_time
        sync_end_time := some sync_end_time }

/-- `save_klines_and_update_pair` (lines 247-328 of
`sync_all_historycal_data.rs`).  A store-write failure returns the wrapped
error immediately (before any publish, watermark update or progress
increment).  On store success the engine publishes on "klines:initialized",
computes the updated watermark from `klines.last()`, attempts the registry
save, publishes the updated pair on "trading_pairs:initialized" only when
that save succeeded, increments `completed_tasks` once and returns `Ok`.
Publish and registry-save failures are only logged. -/
def save_klines_and_update_pair (pair : TradingPair) (interval : String)
    (klines : List Kline) (sync_start_time sync_end_time : Int)
    (env : SaveEnv) : TaskEffects :=
  match env.save_klines_result with
  | .error e =>
    { result := .error (.RequestError ("Failed to save klines: " ++ e.display))
      saveAttempt := none
      saveOk := false
      published := []
      completedDelta := 0 }
  | .ok _ =>
    let klinesAttempt : String × Payload :=
      ("klines:initialized", .klinesMsg pair.symbol interval)
    let updated_pair :=
      updated_watermark_pair pair klines sync_start_time sync_end_time
    match env.save_pair_result with
    | .error _ =>
      { result := .ok ()
        saveAttempt := some updated_pair
        saveOk := false
        published := [klinesAttempt]
        completedDelta := 1 }
    | .ok _ =>
      { result := .ok ()
        saveAttempt := some updated_pair
        saveOk := true
        published :=
          [klinesAttempt, ("trading_pairs:initialized", .pairRecord updated_pair)]
        completedDelta := 1 }

/-- Environment of one task: the outcome of the registry read inside
`determine_sync_start_time`, the outcome of the `client.get_klines` fetch,
and the outcomes of the calls inside `save_klines_and_update_pair`. -/
structure TaskEnv where
  find_result : Except String (Option TradingPair)
  fetch_result : Except BinanceError (List Kline)
  save_env : SaveEnv

/-- `fetch_and_save_klines` (lines 201-245): after the rate-limiter acquire
(modelled separately, see `RateLimiter`), a fetch error propagates as the
task's failure; on success the klines are handed to
`save_klines_and_update_pair`. -/
def fetch_and_save_klines (pair : TradingPair) (interval : String)
    (sync_start_time sync_end_time : Int)
    (fetch_result : Except BinanceError (List Kline))
    (env : SaveEnv) : TaskEffects :=
  match fetch_result with
  | .error e =>
    { result := .error e
      saveAttempt := none
      saveOk := false
      published := []
      completedDelta := 0 }
  | .ok klines =>
    save_klines_and_update_pair pair interval klines
      sync_start_time sync_end_time env

/-- `sync_trading_pair_interval` (lines 135-179).  `now` is the task's
`Utc::now()` reading.  When the computed window is empty
(`sync_start_time >= sync_end_time`) the task increments `completed_tasks`
and returns `Ok` without fetching. -/
def sync_trading_pair_interval (pair : TradingPair)
    (interval_config : IntervalConfig) (now : Int) (env : TaskEnv) :
    TaskEffects :=
  let sync_end_time := now
  let sync_start_time :=
    determine_sync_start_time sync_end_time interval_config.duration
      env.find_result
  if sync_start_time ≥ sync_end_time then
    { result := .ok ()
      saveAttempt := none
      saveOk := false
      published := []
      completedDelta := 1 }
  else
    fetch_and_save_klines pair interval_config.interval
      sync_start_time sync_end_time env.fetch_result env.save_env

/-- The fan-out of `execute` (lines 97-113): one task per trading pair per
interval, in `flat_map` order.  `envf pair ic` provides that task's
`Utc::now()` reading and collaborator outcomes. -/
def task_results (pairs : List TradingPair) (ics : List IntervalConfig)
    (envf : TradingPair → IntervalConfig → Int × TaskEnv) : List TaskEffects :=
  pairs.flatMap fun pair =>
    ics.map fun ic =>
      sync_trading_pair_interval pair ic (envf pair ic).1 (envf pair ic).2

/-- What `execute` leaves behind: its returned `Result` and the final values
of the two progress counters. -/
structure ExecOutcome where
  result : Except BinanceError Unit
  total_tasks : Nat
  completed_tasks : Nat

/-- `execute` (lines 85-125) together with `initialize_progress`
(lines 127-133): on discovery failure the error propagates before the
progress counters are touched (modelled as zero counters); otherwise
`total_tasks := pairs * intervals`, all tasks run, the task errors are
collected, and a non-empty error list collapses into the single aggregate
`RequestError`. -/
def execute (pairsResult : Except BinanceError (List TradingPair))
    (ics : List IntervalConfig)
    (envf : TradingPair → IntervalConfig → Int × TaskEnv) : ExecOutcome :=
  match pairsResult with
  | .error e => { result := .error e, total_tasks := 0, completed_tasks := 0 }
  | .ok pairs =>
    let total := pairs.length * ics.length
    let effs := task_results pairs ics envf
    let completed := (effs.map TaskEffects.completedDelta).sum
    let errors := effs.filter TaskEffects.failed
    if errors.isEmpty then
      { result := .ok (), total_tasks := total, completed_tasks := completed }
    else
      { result := .error (.RequestError "Some trading pairs failed to sync")
        total_tasks := total
        completed_tasks := completed }

/-- The registry record for an instrument after a task, given its record
before the task: the pair handed to `trading_pair_repo.save` when that save
succeeded, unchanged otherwise. -/
def sync_end_after (eff : TaskEffects) (prev : Option Int) : Option Int :=
  match eff.saveOk, eff.saveAttempt with
  | true, some u => u.sync_end_time
  | _, _ => prev

/-- `infrastructure::adapters::rate_limiter::RateLimiter`: token count,
last-refill reading (seconds), refill interval (seconds) and refill amount.
The two atomics are plain fields; concurrent interleavings are modelled as
sequences of loop iterations. -/
structure RateLimiter where
  tokens : Nat
  last_refill : Nat
  refill_interval : Nat
  tokens_per_refill : Nat
deriving DecidableEq

/-- `RateLimiter::new` (lines 13-23): a 60-second window pre-filled to
capacity.  `now` is the constructor's clock reading. -/
def RateLimiter.new (requests_per_minute : Nat) (now : Nat) : RateLimiter :=
  { tokens := requests_per_minute
    last_refill := now
    refill_interval := 60
    tokens_per_refill := requests_per_minute }

/-- The refill check at the top of each `acquire` loop iteration
(lines 27-36): when at least `refill_interval` has elapsed since
`last_refill`, reset the tokens to `tokens_per_refill` and stamp
`last_refill := now`. -/
def RateLimiter.refillCheck (rl : RateLimiter) (now : Nat) : RateLimiter :=
  let time_passed := now - rl.last_refill
  if time_passed ≥ rl.refill_interval then
    { rl with tokens := rl.tokens_per_refill, last_refill := now }
  else rl

/-- One iteration of the `acquire` loop (lines 26-56): refill check, then a
compare-and-swap decrement attempt when a token is visible.  The Boolean is
true exactly when the iteration returns from `acquire`; a false means the
iteration falls through to the 100ms sleep and retries.  A CAS that loses a
race in the source simply re-enters the loop, which a subsequent iteration
of this step function represents. -/
def RateLimiter.acquireIter (rl : RateLimiter) (now : Nat) :
    RateLimiter × Bool :=
  let rl1 := rl.refillCheck now
  let current_tokens := rl1.tokens
  if 0 < current_tokens then
    ({ rl1 with tokens := current_tokens - 1 }, true)
  else
    (rl1, false)

/-- The whole `acquire` loop over a finite schedule of clock readings, one
per iteration; `none` means every scheduled iteration fell through to the
sleep (the source would keep spinning). -/
def RateLimiter.acquireLoop : RateLimiter → List Nat → Option RateLimiter
  | _, [] => none
  | rl, now :: rest =>
    let step := rl.acquireIter now
    if step.2 then some step.1 else RateLimiter.acquireLoop step.1 rest

/-- A concrete trading pair used to evaluate the definitions on closed
inputs. -/
def samplePair : TradingPair :=
  { id := none
    symbol := "BTCUSDT"
    base_asset := "BTC"
    quote_asset := "USDT"
    min_price := none
    max_price := none
    tick_size := none
    min_qty := none
    max_qty := none
    step_size := none
    min_notional := none
    is_active := true
    status := "TRADING"
    is_margin_trading := false
    is_spot_trading := true
    exchange_id := 1
    sync_start_time := none
    sync_end_time := none }

/-- A concrete kline with the given open/close times. -/
def sampleKline (ot ct : Int) : Kline :=
  { platform := "binance"
    interval := "1h"
    symbol := "BTCUSDT"
    open_time := ot
    close_time := ct
    open_price := 0
    high := 0
    low := 0
    close := 0
    volume := 0
    quote_asset_volume := 0
    taker_buy_base_asset_volume := 0
    taker_buy_quote_asset_volume := 0
    number_of_trades := 0 }

/-- A `SaveEnv` in which every collaborator call succeeds. -/
def saveEnvAllOk : SaveEnv :=
  { save_klines_result := .ok ()
    publish_klines_result := .ok ()
    save_pair_result := .ok ()
    publish_pair_result := .ok () }

/-! ## Branch equations

One equation per control-flow branch of the engine, used by the claim
theorems below. -/

lemma save_klines_store_err {pair : TradingPair} {interval : String}
    {klines : List Kline} {s e : Int} {env : SaveEnv}
    {e2 : KlinesRepositoryError}
    (hstore : env.save_klines_result = .error e2) :
    save_klines_and_update_pair pair interval klines s e env =
      { result :=
          .error (.RequestError ("Failed to save klines: " ++ e2.display))
        saveAttempt := none
        saveOk := false
        published := []
        completedDelta := 0 } := by
  simp [save_klines_and_update_pair, hstore]

lemma save_klines_pair_err {pair : TradingPair} {interval : String}
    {klines : List Kline} {s e : Int} {env : SaveEnv} {m : String}
    (hstore : env.save_klines_result = .ok ())
    (hsp : env.save_pair_result = .error m) :
    save_klines_and_update_pair pair interval klines s e env =
      { result := .ok ()
        saveAttempt := some (updated_watermark_pair pair klines s e)
        saveOk := false
        published :=
          [("klines:initialized", .klinesMsg pair.symbol interval)]
        completedDelta := 1 } := by
  simp [save_klines_and_update_pair, hstore, hsp]

lemma save_klines_pair_ok {pair : TradingPair} {interval : String}
    {klines : List Kline} {s e : Int} {env : SaveEnv}
    (hstore : env.save_klines_result = .ok ())
    (hsp : env.save_pair_result = .ok ()) :
    save_klines_and_update_pair pair interval klines s e env =
      { result := .ok ()
        saveAttempt := some (updated_watermark_pair pair klines s e)
        saveOk := true
        published :=
          [("klines:initialized", .klinesMsg pair.symbol interval),
           ("trading_pairs:initialized",
             .pairRecord (updated_watermark_pair pair klines s e))]
        completedDelta := 1 } := by
  simp [save_klines_and_update_pair, hstore, hsp]

lemma save_klines_result_ok {pair : TradingPair} {interval : String}
    {klines : List Kline} {s e : Int} {env : SaveEnv}
    (hstore : env.save_klines_result = .ok ()) :
    (save_klines_and_update_pair pair interval klines s e env).result
      = .ok () := by
  cases hsp : env.save_pair_result with
  | error m => rw [save_klines_pair_err hstore hsp]
  | ok v => cases v; rw [save_klines_pair_ok hstore hsp]

lemma save_klines_saveAttempt_ok {pair : TradingPair} {interval : String}
    {klines : List Kline} {s e : Int} {env : SaveEnv}
    (hstore : env.save_klines_result = .ok ()) :
    (save_klines_and_update_pair pair interval klines s e env).saveAttempt
      = some (updated_watermark_pair pair klines s e) := by
  cases hsp : env.save_pair_result with
  | error m => rw [save_klines_pair_err hstore hsp]
  | ok v => cases v; rw [save_klines_pair_ok hstore hsp]

lemma save_klines_delta_ok {pair : TradingPair} {interval : String}
    {klines : List Kline} {s e : Int} {env : SaveEnv}
    (hstore : env.save_klines_result = .ok ()) :
    (save_klines_and_update_pair pair interval klines s e env).completedDelta
      = 1 := by
  cases hsp : env.save_pair_result with
  | error m => rw [save_klines_pair_err hstore hsp]
  | ok v => cases v; rw [save_klines_pair_ok hstore hsp]

lemma sync_task_skip {pair : TradingPair} {ic : IntervalConfig} {now : Int}
    {env : TaskEnv}
    (h : determine_sync_start_time now ic.duration env.find_result ≥ now) :
    sync_trading_pair_interval pair ic now env =
      { result := .ok ()
        saveAttempt := none
        saveOk := false
        published := []
        completedDelta := 1 } := by
  simp [sync_trading_pair_interval, h]

lemma sync_task_fetch_err {pair : TradingPair} {ic : IntervalConfig}
    {now : Int} {env : TaskEnv} {e : BinanceError}
    (hrun : determine_sync_start_time now ic.duration env.find_result < now)
    (hf : env.fetch_result = .error e) :
    sync_trading_pair_interval pair ic now env =
      { result := .error e
        saveAttempt := none
        saveOk := false
        published := []
        completedDelta := 0 } := by
  have hne : ¬ determine_sync_start_time now ic.duration env.find_result
      ≥ now := not_le.mpr hrun
  simp [sync_trading_pair_interval, hne, fetch_and_save_klines, hf]

lemma sync_task_fetch_ok {pair : TradingPair} {ic : IntervalConfig}
    {now : Int} {env : TaskEnv} {klines : List Kline}
    (hrun : determine_sync_start_time now ic.duration env.find_result < now)
    (hf : env.fetch_result = .ok klines) :
    sync_trading_pair_interval pair ic now env =
      save_klines_and_update_pair pair ic.interval klines
        (determine_sync_start_time now ic.duration env.find_result) now
        env.save_env := by
  have hne : ¬ determine_sync_start_time now ic.duration env.find_result
      ≥ now := not_le.mpr hrun
  simp [sync_trading_pair_interval, hne, fetch_and_save_klines, hf]

lemma updated_watermark_pair_nil {pair : TradingPair} {s e : Int} :
    updated_watermark_pair pair [] s e =
      { pair with sync_start_time := some s, sync_end_time := some e } :=
  rfl

lemma updated_watermark_pair_last_none {pair : TradingPair}
    {klines : List Kline} {s e : Int} {last : Kline}
    (hlast : klines.getLast? = some last)
    (hs : pair.sync_start_time = none) :
    updated_watermark_pair pair klines s e =
      { pair with
          sync_start_time := some s
          sync_end_time := some last.close_time } := by
  simp [updated_watermark_pair, hlast, hs]

lemma updated_watermark_pair_last_some {pair : TradingPair}
    {klines : List Kline} {s e s0 : Int} {last : Kline}
    (hlast : klines.getLast? = some last)
    (hs : pair.sync_start_time = some s0) :
    updated_watermark_pair pair klines s e =
      { pair with sync_end_time := some last.close_time } := by
  simp [updated_watermark_pair, hlast, hs]

/-! ## Claim theorems -/

/-- C2: the computed `sync_start_time` equals the maximum of
`sync_end_time - lookback_duration` and the instrument's persisted watermark
`sync_end_time` when one is present; for an instrument with no prior
watermark it equals exactly `now() - lookback_duration`; and it never
precedes `now() - lookback_duration`, whatever the registry read returned. -/
theorem start_time_resumption_rule (e d w : Int) (lp : TradingPair)
    (hw : lp.sync_end_time = some w)
    (fr : Except String (Option TradingPair)) :
    determine_sync_start_time e d (.ok (some lp)) = max (e - d) w ∧
    determine_sync_start_time e d (.ok none) = e - d ∧
    e - d ≤ determine_sync_start_time e d fr := by
  refine ⟨?_, by simp [determine_sync_start_time], ?_⟩
  · simp only [determine_sync_start_time, hw]
    rcases lt_or_le (e - d) w with h | h
    · rw [if_pos h, max_eq_right h.le]
    · rw [if_neg (not_lt.mpr h), max_eq_left h]
  · cases fr with
    | error msg => simp [determine_sync_start_time]
    | ok o =>
      cases o with
      | none => simp [determine_sync_start_time]
      | some lp2 =>
        cases h2 : lp2.sync_end_time with
        | none => simp [determine_sync_start_time, h2]
        | some t =>
          simp only [determine_sync_start_time, h2]
          split
          · next h3 => exact le_of_lt h3
          · exact le_refl _

theorem start_time_resumption_rule_witness :
    ({ samplePair with sync_end_time := some 95 } : TradingPair).sync_end_time
        = some 95 ∧
    (determine_sync_start_time 100 30
        (.ok (some { samplePair with sync_end_time := some 95 }))
        = max (100 - 30) 95 ∧
      determine_sync_start_time 100 30 (.ok none) = 100 - 30 ∧
      (100 : Int) - 30 ≤ determine_sync_start_time 100 30 (.error "db down")) :=
  ⟨rfl, start_time_resumption_rule 100 30 95 _ rfl _⟩

/-- C9: when the registry read during start-time computation errors, returns
no instrument, or returns an instrument without a `sync_end_time`, the task
falls back to the default window start `sync_end_time - lookback_duration`,
and the error case is indistinguishable from the no-record case. -/
theorem registry_read_fallback (e d : Int) (msg : String)
    (lp : TradingPair) (hnone : lp.sync_end_time = none) :
    determine_sync_start_time e d (.error msg) = e - d ∧
    determine_sync_start_time e d (.ok none) = e - d ∧
    determine_sync_start_time e d (.ok (some lp)) = e - d ∧
    determine_sync_start_time e d (.error msg)
      = determine_sync_start_time e d (.ok none) := by
  simp [determine_sync_start_time, hnone]

theorem registry_read_fallback_witness :
    samplePair.sync_end_time = none ∧
    (determine_sync_start_time 100 30 (.error "db down") = 100 - 30 ∧
      determine_sync_start_time 100 30 (.ok none) = 100 - 30 ∧
      determine_sync_start_time 100 30 (.ok (some samplePair)) = 100 - 30 ∧
      determine_sync_start_time 100 30 (.error "db down")
        = determine_sync_start_time 100 30 (.ok none)) :=
  ⟨rfl, registry_read_fallback 100 30 "db down" samplePair rfl⟩

/-- C10: in the zero-candle path `save_klines_and_update_pair`
unconditionally overwrites the instrument's `sync_start_time` with the
computed window start even when one was already recorded, while the
non-empty path leaves an existing `sync_start_time` unchanged; and when the
window start was computed against that instrument's own watermark
(`sync_start_time <= sync_end_time`), the overwrite can only move the
stored start boundary forward. -/
theorem empty_window_start_overwrite (pair : TradingPair) (interval : String)
    (s0 s e : Int) (env : SaveEnv)
    (hstore : env.save_klines_result = .ok ())
    (hs0 : pair.sync_start_time = some s0) :
    (∀ u, (save_klines_and_update_pair pair interval [] s e env).saveAttempt
        = some u →
      u.sync_start_time = some s ∧ u.sync_end_time = some e) ∧
    (∀ (ks : List Kline) u, ks ≠ [] →
      (save_klines_and_update_pair pair interval ks s e env).saveAttempt
        = some u →
      u.sync_start_time = some s0) ∧
    (∀ w d, pair.sync_end_time = some w → s0 ≤ w →
      s0 ≤ determine_sync_start_time e d (.ok (some pair))) := by
  refine ⟨?_, ?_, ?_⟩
  · intro u hu
    rw [save_klines_saveAttempt_ok hstore] at hu
    injection hu with hu
    subst hu
    rw [updated_watermark_pair_nil]
    exact ⟨rfl, rfl⟩
  · intro ks u hne hu
    rw [save_klines_saveAttempt_ok hstore] at hu
    injection hu with hu
    subst hu
    obtain ⟨last, hlast⟩ :=
      Option.isSome_iff_exists.mp (List.getLast?_isSome.mpr hne)
    rw [updated_watermark_pair_last_some hlast hs0]
    exact hs0
  · intro w d hw hle
    simp only [determine_sync_start_time, hw]
    split
    · exact hle
    · next h3 => exact hle.trans (le_of_not_lt h3)

theorem empty_window_start_overwrite_witness :
    saveEnvAllOk.save_klines_result = .ok () ∧
    ({ samplePair with sync_start_time := some 40, sync_end_time := some 50 }
        : TradingPair).sync_start_time = some 40 ∧
    ((∀ u, (save_klines_and_update_pair
          { samplePair with sync_start_time := some 40, sync_end_time := some 50 }
          "1h" [] 90 100 saveEnvAllOk).saveAttempt = some u →
        u.sync_start_time = some 90 ∧ u.sync_end_time = some 100) ∧
      (∀ (ks : List Kline) u, ks ≠ [] →
        (save_klines_and_update_pair
          { samplePair with sync_start_time := some 40, sync_end_time := some 50 }
          "1h" ks 90 100 saveEnvAllOk).saveAttempt = some u →
        u.sync_start_time = some 40) ∧
      (∀ w d,
        ({ samplePair with sync_start_time := some 40, sync_end_time := some 50 }
          : TradingPair).sync_end_time = some w → 40 ≤ w →
        40 ≤ determine_sync_start_time 100 d (.ok (some
          { samplePair with sync_start_time := some 40, sync_end_time := some 50 })))) :=
  ⟨rfl, rfl, empty_window_start_overwrite _ "1h" 40 90 100 saveEnvAllOk rfl rfl⟩

/-- C8 counterexample: on a concrete store-success task the engine publishes
topics "klines:initialized" and "trading_pairs:initialized", not the
"candles:ingested" / "instrument:updated" topics the claim names. -/
theorem publish_topics_cex :
    ((save_klines_and_update_pair samplePair "1h" [] 90 100
        saveEnvAllOk).published.map Prod.fst
      = ["klines:initialized", "trading_pairs:initialized"]) ∧
    "candles:ingested" ∉
      (save_klines_and_update_pair samplePair "1h" [] 90 100
        saveEnvAllOk).published.map Prod.fst ∧
    "instrument:updated" ∉
      (save_klines_and_update_pair samplePair "1h" [] 90 100
        saveEnvAllOk).published.map Prod.fst := by
  decide

/-- C8 (amended): after every successful candle-store write the engine
publishes an event on topic "klines:initialized" whose payload holds the
symbol and interval, and after every successful registry save it publishes
on topic "trading_pairs:initialized" the full serialized instrument record;
publish outcomes are only logged and never change the task's result or its
progress increment. -/
theorem publish_events_spec (pair : TradingPair) (interval : String)
    (klines : List Kline) (s e : Int) (env : SaveEnv)
    (hstore : env.save_klines_result = .ok ()) :
    (save_klines_and_update_pair pair interval klines s e env).published.head?
      = some ("klines:initialized", .klinesMsg pair.symbol interval) ∧
    (env.save_pair_result = .ok () →
      ∃ u, (save_klines_and_update_pair pair interval klines s e
          env).saveAttempt = some u ∧
        (save_klines_and_update_pair pair interval klines s e env).published
          = [("klines:initialized", .klinesMsg pair.symbol interval),
             ("trading_pairs:initialized", .pairRecord u)]) ∧
    (∀ m, env.save_pair_result = .error m →
      (save_klines_and_update_pair pair interval klines s e env).published
        = [("klines:initialized", .klinesMsg pair.symbol interval)]) ∧
    (save_klines_and_update_pair pair interval klines s e env).result
      = .ok () ∧
    (save_klines_and_update_pair pair interval klines s e env).completedDelta
      = 1 := by
  refine ⟨?_, ?_, ?_, save_klines_result_ok hstore,
    save_klines_delta_ok hstore⟩
  · cases hsp : env.save_pair_result with
    | error m =>
      rw [save_klines_pair_err hstore hsp]
      rfl
    | ok v =>
      cases v
      rw [save_klines_pair_ok hstore hsp]
      rfl
  · intro hsp
    rw [save_klines_pair_ok hstore hsp]
    exact ⟨_, rfl, rfl⟩
  · intro m hsp
    rw [save_klines_pair_err hstore hsp]

theorem publish_events_spec_witness :
    saveEnvAllOk.save_klines_result = .ok () ∧
    ((save_klines_and_update_pair samplePair "1h" [] 90 100
        saveEnvAllOk).published.head?
      = some ("klines:initialized", .klinesMsg samplePair.symbol "1h") ∧
    (saveEnvAllOk.save_pair_result = .ok () →
      ∃ u, (save_klines_and_update_pair samplePair "1h" [] 90 100
          saveEnvAllOk).saveAttempt = some u ∧
        (save_klines_and_update_pair samplePair "1h" [] 90 100
          saveEnvAllOk).published
          = [("klines:initialized", .klinesMsg samplePair.symbol "1h"),
             ("trading_pairs:initialized", .pairRecord u)]) ∧
    (∀ m, saveEnvAllOk.save_pair_result = .error m →
      (save_klines_and_update_pair samplePair "1h" [] 90 100
        saveEnvAllOk).published
        = [("klines:initialized", .klinesMsg samplePair.symbol "1h")]) ∧
    (save_klines_and_update_pair samplePair "1h" [] 90 100
      saveEnvAllOk).result = .ok () ∧
    (save_klines_and_update_pair samplePair "1h" [] 90 100
      saveEnvAllOk).completedDelta = 1) :=
  ⟨rfl, publish_events_spec samplePair "1h" [] 90 100 saveEnvAllOk rfl⟩

/-- A task environment in which the registry holds no record, the fetch
succeeds with one kline, and the candle-store write fails. -/
def storeFailEnv : TaskEnv :=
  { find_result := .ok none
    fetch_result := .ok [sampleKline 0 50]
    save_env :=
      { save_klines_result := .error (.DatabaseError "disk full")
        publish_klines_result := .ok ()
        save_pair_result := .ok ()
        publish_pair_result := .ok () } }

/-- C4 counterexample: a concrete task whose fetch succeeded but whose
candle-store write failed performs zero `completed_tasks` increments, where
the claim demands exactly one. -/
theorem completed_counter_store_failure_cex :
    storeFailEnv.fetch_result = .ok [sampleKline 0 50] ∧
    (sync_trading_pair_interval samplePair { interval := "1h", duration := 10 }
        100 storeFailEnv).completedDelta = 0 ∧
    (sync_trading_pair_interval samplePair { interval := "1h", duration := 10 }
        100 storeFailEnv).completedDelta ≠ 1 :=
  ⟨rfl, rfl, by decide⟩

/-- C4 (amended): for every task that reaches the fetch (non-empty window)
and whose fetch succeeds, `completed_tasks` is incremented by exactly one
when the candle-store write also succeeds — whatever the registry-save and
publish outcomes — and is not incremented at all when the store write
fails. -/
theorem completed_counter_increment (pair : TradingPair)
    (ic : IntervalConfig) (now : Int) (env : TaskEnv) (klines : List Kline)
    (hrun : determine_sync_start_time now ic.duration env.find_result < now)
    (hfetch : env.fetch_result = .ok klines) :
    (env.save_env.save_klines_result = .ok () →
      (sync_trading_pair_interval pair ic now env).completedDelta = 1) ∧
    (∀ e2, env.save_env.save_klines_result = .error e2 →
      (sync_trading_pair_interval pair ic now env).completedDelta = 0) := by
  constructor
  · intro hstore
    rw [sync_task_fetch_ok hrun hfetch]
    exact save_klines_delta_ok hstore
  · intro e2 hstore
    rw [sync_task_fetch_ok hrun hfetch, save_klines_store_err hstore]

/-- A task environment in which the registry holds no record and every
collaborator call succeeds, the fetch returning one kline closing at 50. -/
def allOkEnv : TaskEnv :=
  { find_result := .ok none
    fetch_result := .ok [sampleKline 0 50]
    save_env := saveEnvAllOk }

theorem completed_counter_increment_witness :
    determine_sync_start_time 100 (10 : Int) allOkEnv.find_result < 100 ∧
    allOkEnv.fetch_result = .ok [sampleKline 0 50] ∧
    ((allOkEnv.save_env.save_klines_result = .ok () →
      (sync_trading_pair_interval samplePair
        { interval := "1h", duration := 10 } 100 allOkEnv).completedDelta
        = 1) ∧
    (∀ e2, allOkEnv.save_env.save_klines_result = .error e2 →
      (sync_trading_pair_interval samplePair
        { interval := "1h", duration := 10 } 100 allOkEnv).completedDelta
        = 0)) :=
  ⟨by decide, rfl,
    completed_counter_increment samplePair { interval := "1h", duration := 10 }
      100 allOkEnv [sampleKline 0 50] (by decide) rfl⟩

/-- C6: for a task that reaches the fetch, the task returns an error exactly
when the fetch or the candle-store write fails; a store-write failure leaves
the registry save unreached (watermark not advanced) and yields the wrapped
store error, and a registry-save failure after a successful store write
still returns success. -/
theorem task_error_boundary (pair : TradingPair) (ic : IntervalConfig)
    (now : Int) (env : TaskEnv)
    (hrun : determine_sync_start_time now ic.duration env.find_result < now) :
    ((∃ e, (sync_trading_pair_interval pair ic now env).result = .error e) ↔
      ((∃ e, env.fetch_result = .error e) ∨
       (∃ e2, env.save_env.save_klines_result = .error e2))) ∧
    (∀ klines e2, env.fetch_result = .ok klines →
      env.save_env.save_klines_result = .error e2 →
      (sync_trading_pair_interval pair ic now env).saveAttempt = none ∧
      (sync_trading_pair_interval pair ic now env).result
        = .error (.RequestError ("Failed to save klines: " ++ e2.display))) ∧
    (∀ klines, env.fetch_result = .ok klines →
      env.save_env.save_klines_result = .ok () →
      (sync_trading_pair_interval pair ic now env).result = .ok ()) := by
  refine ⟨?_, ?_, ?_⟩
  · constructor
    · rintro ⟨e, he⟩
      cases hf : env.fetch_result with
      | error e0 => exact Or.inl ⟨e0, rfl⟩
      | ok klines =>
        cases hs : env.save_env.save_klines_result with
        | error e2 => exact Or.inr ⟨e2, rfl⟩
        | ok v =>
          cases v
          rw [sync_task_fetch_ok hrun hf, save_klines_result_ok hs] at he
          exact Except.noConfusion he
    · rintro (⟨e, he⟩ | ⟨e2, hs⟩)
      · exact ⟨e, by rw [sync_task_fetch_err hrun he]⟩
      · cases hf : env.fetch_result with
        | error e0 => exact ⟨e0, by rw [sync_task_fetch_err hrun hf]⟩
        | ok klines =>
          refine ⟨.RequestError ("Failed to save klines: " ++ e2.display), ?_⟩
          rw [sync_task_fetch_ok hrun hf, save_klines_store_err hs]
  · intro klines e2 hf hs
    rw [sync_task_fetch_ok hrun hf, save_klines_store_err hs]
    exact ⟨rfl, rfl⟩
  · intro klines hf hs
    rw [sync_task_fetch_ok hrun hf, save_klines_result_ok hs]

theorem task_error_boundary_witness :
    determine_sync_start_time 100 (10 : Int) storeFailEnv.find_result < 100 ∧
    (((∃ e, (sync_trading_pair_interval samplePair
          { interval := "1h", duration := 10 } 100 storeFailEnv).result
          = .error e) ↔
      ((∃ e, storeFailEnv.fetch_result = .error e) ∨
       (∃ e2, storeFailEnv.save_env.save_klines_result = .error e2))) ∧
    (∀ klines e2, storeFailEnv.fetch_result = .ok klines →
      storeFailEnv.save_env.save_klines_result = .error e2 →
      (sync_trading_pair_interval samplePair
        { interval := "1h", duration := 10 } 100 storeFailEnv).saveAttempt
        = none ∧
      (sync_trading_pair_interval samplePair
        { interval := "1h", duration := 10 } 100 storeFailEnv).result
        = .error (.RequestError ("Failed to save klines: " ++ e2.display))) ∧
    (∀ klines, storeFailEnv.fetch_result = .ok klines →
      storeFailEnv.save_env.save_klines_result = .ok () →
      (sync_trading_pair_interval samplePair
        { interval := "1h", duration := 10 } 100 storeFailEnv).result
        = .ok ())) :=
  ⟨by decide,
    task_error_boundary samplePair { interval := "1h", duration := 10 }
      100 storeFailEnv (by decide)⟩

/-- C1: for a task whose fetch, candle-store write and registry save all
succeed: with a non-empty fetched list the saved instrument has
`sync_end_time` equal to the last candle's `close_time`, and its
`sync_start_time` is set to the computed window start only when the
instrument previously had none (an existing one is kept); with an empty
fetched list both `sync_start_time` and `sync_end_time` are set to the
computed window bounds. -/
theorem watermark_update_on_success (pair : TradingPair)
    (ic : IntervalConfig) (now : Int) (env : TaskEnv) (klines : List Kline)
    (hrun : determine_sync_start_time now ic.duration env.find_result < now)
    (hfetch : env.fetch_result = .ok klines)
    (hstore : env.save_env.save_klines_result = .ok ())
    (hsave : env.save_env.save_pair_result = .ok ()) :
    ∃ u, (sync_trading_pair_interval pair ic now env).saveAttempt = some u ∧
      (sync_trading_pair_interval pair ic now env).saveOk = true ∧
      (∀ last, klines.getLast? = some last →
        u.sync_end_time = some last.close_time ∧
        (pair.sync_start_time = none →
          u.sync_start_time = some
            (determine_sync_start_time now ic.duration env.find_result)) ∧
        (∀ s0, pair.sync_start_time = some s0 →
          u.sync_start_time = some s0)) ∧
      (klines = [] →
        u.sync_start_time = some
          (determine_sync_start_time now ic.duration env.find_result) ∧
        u.sync_end_time = some now) := by
  rw [sync_task_fetch_ok hrun hfetch, save_klines_pair_ok hstore hsave]
  refine ⟨_, rfl, rfl, ?_, ?_⟩
  · intro last hlast
    cases hs : pair.sync_start_time with
    | none =>
      rw [updated_watermark_pair_last_none hlast hs]
      exact ⟨rfl, fun _ => rfl, fun s0 h => Option.noConfusion h⟩
    | some s0 =>
      rw [updated_watermark_pair_last_some hlast hs]
      refine ⟨rfl, fun h => Option.noConfusion h, fun s1 h => ?_⟩
      injection h with h1
      subst h1
      exact hs
  · intro hempty
    subst hempty
    rw [updated_watermark_pair_nil]
    exact ⟨rfl, rfl⟩

theorem watermark_update_on_success_witness :
    determine_sync_start_time 100 (10 : Int) allOkEnv.find_result < 100 ∧
    allOkEnv.fetch_result = .ok [sampleKline 0 50] ∧
    allOkEnv.save_env.save_klines_result = .ok () ∧
    allOkEnv.save_env.save_pair_result = .ok () ∧
    (∃ u, (sync_trading_pair_interval samplePair
          { interval := "1h", duration := 10 } 100 allOkEnv).saveAttempt
        = some u ∧
      (sync_trading_pair_interval samplePair
          { interval := "1h", duration := 10 } 100 allOkEnv).saveOk = true ∧
      (∀ last, ([sampleKline 0 50] : List Kline).getLast? = some last →
        u.sync_end_time = some last.close_time ∧
        (samplePair.sync_start_time = none →
          u.sync_start_time = some
            (determine_sync_start_time 100 (10 : Int) allOkEnv.find_result)) ∧
        (∀ s0, samplePair.sync_start_time = some s0 →
          u.sync_start_time = some s0)) ∧
      (([sampleKline 0 50] : List Kline) = [] →
        u.sync_start_time = some
          (determine_sync_start_time 100 (10 : Int) allOkEnv.find_result) ∧
        u.sync_end_time = some 100)) :=
  ⟨by decide, rfl, rfl, rfl,
    watermark_update_on_success samplePair { interval := "1h", duration := 10 }
      100 allOkEnv [sampleKline 0 50] (by decide) rfl rfl rfl⟩

/-- C3 (amended): under the hypotheses that the fetched candles are ordered
by ascending `open_time` with `close_time` values inside the requested
window, and that the registry read during start-time computation succeeded
and returned the instrument's record bearing its prior `sync_end_time`
watermark, a task that returns success leaves the instrument's stored
`sync_end_time` at least as large as that prior watermark.  (Without the
registry-read hypothesis the property fails: see the counterexample above,
where an absorbed read error lets the window start fall back past the
prior watermark.) -/
theorem watermark_monotonicity (pair pre : TradingPair) (ic : IntervalConfig)
    (now w : Int) (env : TaskEnv)
    (hfind : env.find_result = .ok (some pre))
    (hw : pre.sync_end_time = some w)
    (klines : List Kline)
    (hfetch : env.fetch_result = .ok klines)
    (hsorted : klines.Pairwise fun a b => a.open_time ≤ b.open_time)
    (hwin : ∀ k ∈ klines,
      determine_sync_start_time now ic.duration env.find_result
        ≤ k.close_time ∧ k.close_time ≤ now)
    (hok : (sync_trading_pair_interval pair ic now env).result = .ok ()) :
    ∃ w2, sync_end_after (sync_trading_pair_interval pair ic now env)
        (some w) = some w2 ∧ w ≤ w2 := by
  have hws : w ≤ determine_sync_start_time now ic.duration env.find_result := by
    simp only [determine_sync_start_time, hfind, hw]
    split
    · exact le_refl w
    · next h3 => exact le_of_not_lt h3
  by_cases hskip : determine_sync_start_time now ic.duration env.find_result
      ≥ now
  · rw [sync_task_skip hskip]
    exact ⟨w, rfl, le_refl w⟩
  · have hrun : determine_sync_start_time now ic.duration env.find_result
        < now := lt_of_not_ge hskip
    rw [sync_task_fetch_ok hrun hfetch] at hok ⊢
    cases hs : env.save_env.save_klines_result with
    | error e2 =>
      rw [save_klines_store_err hs] at hok
      exact Except.noConfusion hok
    | ok v =>
      cases v
      cases hsp : env.save_env.save_pair_result with
      | error m =>
        rw [save_klines_pair_err hs hsp]
        exact ⟨w, rfl, le_refl w⟩
      | ok v2 =>
        cases v2
        rw [save_klines_pair_ok hs hsp]
        cases hlast : klines.getLast? with
        | none =>
          have hnil : klines = [] := List.getLast?_eq_none_iff.mp hlast
          subst hnil
          exact ⟨now, rfl, le_of_lt (lt_of_le_of_lt hws hrun)⟩
        | some last =>
          have hmem : last ∈ klines := List.mem_of_mem_getLast? hlast
          have hcl := (hwin last hmem).1
          cases hps : pair.sync_start_time with
          | none =>
            rw [updated_watermark_pair_last_none hlast hps]
            exact ⟨last.close_time, rfl, hws.trans hcl⟩
          | some s0 =>
            rw [updated_watermark_pair_last_some hlast hps]
            exact ⟨last.close_time, rfl, hws.trans hcl⟩

/-- A task environment in which the registry read fails, the fetch succeeds
with one kline closing at 5, and all persistence calls succeed. -/
def backfillEnv : TaskEnv :=
  { find_result := .error "db down"
    fetch_result := .ok [sampleKline 0 5]
    save_env := saveEnvAllOk }

/-- C3 counterexample: with a registry read error during start-time
computation (silently absorbed, so the window start falls back to
`now - lookback = 5`), a task whose fetch, store write and registry save
all succeed stores `sync_end_time = 5` over a prior watermark of 50 —
the watermark moves backward even though the fetched candles are ordered
by ascending `open_time`, their `close_time` values lie within the
requested window, and the task returns success. -/
theorem watermark_monotonicity_cex :
    ([sampleKline 0 5] : List Kline).Pairwise
      (fun a b => a.open_time ≤ b.open_time) ∧
    (∀ k ∈ ([sampleKline 0 5] : List Kline),
      determine_sync_start_time 100 (95 : Int) backfillEnv.find_result
        ≤ k.close_time ∧ k.close_time ≤ 100) ∧
    (sync_trading_pair_interval samplePair
      { interval := "1h", duration := 95 } 100 backfillEnv).result
      = .ok () ∧
    sync_end_after (sync_trading_pair_interval samplePair
        { interval := "1h", duration := 95 } 100 backfillEnv) (some 50)
      = some 5 ∧
    ¬ (50 : Int) ≤ 5 :=
  ⟨List.pairwise_singleton _ _, by decide, rfl, rfl, by decide⟩

/-- A task environment for an instrument whose registry record carries the
watermark `sync_end_time = 20`, with a successful fetch of one kline
closing at 60 and all-success persistence. -/
def monotoneEnv : TaskEnv :=
  { find_result := .ok (some { samplePair with sync_end_time := some 20 })
    fetch_result := .ok [sampleKline 0 60]
    save_env := saveEnvAllOk }

theorem watermark_monotonicity_witness :
    monotoneEnv.find_result
      = .ok (some { samplePair with sync_end_time := some 20 }) ∧
    ({ samplePair with sync_end_time := some 20 }
      : TradingPair).sync_end_time = some 20 ∧
    monotoneEnv.fetch_result = .ok [sampleKline 0 60] ∧
    ([sampleKline 0 60] : List Kline).Pairwise
      (fun a b => a.open_time ≤ b.open_time) ∧
    (∀ k ∈ ([sampleKline 0 60] : List Kline),
      determine_sync_start_time 100 (50 : Int) monotoneEnv.find_result
        ≤ k.close_time ∧ k.close_time ≤ 100) ∧
    (sync_trading_pair_interval samplePair
      { interval := "1h", duration := 50 } 100 monotoneEnv).result
      = .ok () ∧
    (∃ w2, sync_end_after (sync_trading_pair_interval samplePair
        { interval := "1h", duration := 50 } 100 monotoneEnv) (some 20)
        = some w2 ∧ (20 : Int) ≤ w2) :=
  ⟨rfl, rfl, rfl, List.pairwise_singleton _ _, by decide, rfl,
    watermark_monotonicity samplePair
      { samplePair with sync_end_time := some 20 }
      { interval := "1h", duration := 50 } 100 20 monotoneEnv rfl rfl
      [sampleKline 0 60] rfl (List.pairwise_singleton _ _) (by decide)
      rfl⟩

/-! ## Progress accounting -/

lemma task_delta_failed (pair : TradingPair) (ic : IntervalConfig)
    (now : Int) (env : TaskEnv) :
    (sync_trading_pair_interval pair ic now env).completedDelta
      = if (sync_trading_pair_interval pair ic now env).failed then 0
        else 1 := by
  by_cases hskip : determine_sync_start_time now ic.duration env.find_result
      ≥ now
  · rw [sync_task_skip hskip]; rfl
  · have hrun := lt_of_not_ge hskip
    cases hf : env.fetch_result with
    | error e => rw [sync_task_fetch_err hrun hf]; rfl
    | ok klines =>
      rw [sync_task_fetch_ok hrun hf]
      cases hs : env.save_env.save_klines_result with
      | error e2 => rw [save_klines_store_err hs]; rfl
      | ok v =>
        cases v
        cases hsp : env.save_env.save_pair_result with
        | error m => rw [save_klines_pair_err hs hsp]; rfl
        | ok v2 => cases v2; rw [save_klines_pair_ok hs hsp]; rfl

lemma mem_task_results {eff : TaskEffects} {pairs : List TradingPair}
    {ics : List IntervalConfig}
    {envf : TradingPair → IntervalConfig → Int × TaskEnv}
    (h : eff ∈ task_results pairs ics envf) :
    ∃ pair ic now env, eff = sync_trading_pair_interval pair ic now env := by
  simp only [task_results, List.mem_flatMap, List.mem_map] at h
  obtain ⟨pair, hp, ic, hic, heq⟩ := h
  exact ⟨pair, ic, (envf pair ic).1, (envf pair ic).2, heq.symm⟩

lemma sum_delta_le (l : List TaskEffects)
    (h : ∀ eff ∈ l, eff.completedDelta ≤ 1) :
    (l.map TaskEffects.completedDelta).sum ≤ l.length := by
  induction l with
  | nil => simp
  | cons a t ih =>
    simp only [List.map_cons, List.sum_cons, List.length_cons]
    have ha := h a (List.mem_cons_self a t)
    have ht := ih fun eff he => h eff (List.mem_cons_of_mem a he)
    omega

lemma sum_delta_eq (l : List TaskEffects)
    (h : ∀ eff ∈ l, eff.completedDelta = if eff.failed then 0 else 1) :
    (l.map TaskEffects.completedDelta).sum
      = (l.filter fun eff => !eff.failed).length := by
  induction l with
  | nil => rfl
  | cons a t ih =>
    have ha := h a (List.mem_cons_self a t)
    have ht := ih fun eff he => h eff (List.mem_cons_of_mem a he)
    simp only [List.map_cons, List.sum_cons, List.filter_cons, ht, ha]
    cases hfa : a.failed with
    | false => simp [hfa]; omega
    | true => simp [hfa]

lemma task_results_length (pairs : List TradingPair)
    (ics : List IntervalConfig)
    (envf : TradingPair → IntervalConfig → Int × TaskEnv) :
    (task_results pairs ics envf).length = pairs.length * ics.length := by
  induction pairs with
  | nil => simp [task_results]
  | cons p ps ih =>
    simp only [task_results, List.flatMap_cons, List.length_append,
      List.length_map, List.length_cons] at ih ⊢
    rw [ih]
    ring

lemma execute_ok (pairs : List TradingPair) (ics : List IntervalConfig)
    (envf : TradingPair → IntervalConfig → Int × TaskEnv) :
    execute (.ok pairs) ics envf =
      { result :=
          if ((task_results pairs ics envf).filter
              TaskEffects.failed).isEmpty then .ok ()
          else .error (.RequestError "Some trading pairs failed to sync")
        total_tasks := pairs.length * ics.length
        completed_tasks :=
          ((task_results pairs ics envf).map
            TaskEffects.completedDelta).sum } := by
  by_cases h : ((task_results pairs ics envf).filter
      TaskEffects.failed).isEmpty
  · simp [execute, h]
  · simp [execute, h]

/-- C5 counterexample: a run of one pair and one interval whose single task
fails at the candle-store write returns the aggregate failure with
`completed_tasks = 0` and `total_tasks = 1`, so the claimed equality on the
aggregate-failure return does not hold. -/
theorem progress_equality_failure_cex :
    (execute (.ok [samplePair]) [{ interval := "1h", duration := 10 }]
        (fun _ _ => (100, storeFailEnv))).result
      = .error (.RequestError "Some trading pairs failed to sync") ∧
    (execute (.ok [samplePair]) [{ interval := "1h", duration := 10 }]
        (fun _ _ => (100, storeFailEnv))).total_tasks = 1 ∧
    (execute (.ok [samplePair]) [{ interval := "1h", duration := 10 }]
        (fun _ _ => (100, storeFailEnv))).completed_tasks = 0 ∧
    (execute (.ok [samplePair]) [{ interval := "1h", duration := 10 }]
        (fun _ _ => (100, storeFailEnv))).completed_tasks
      ≠ (execute (.ok [samplePair]) [{ interval := "1h", duration := 10 }]
        (fun _ _ => (100, storeFailEnv))).total_tasks :=
  ⟨rfl, rfl, rfl, by decide⟩

/-- C5 (amended): `completed_tasks` never exceeds `total_tasks` — every
prefix of the fan-out contributes at most `total_tasks` increments — and
equals the number of non-failed tasks; when `execute` returns success it
equals `total_tasks`, but on the aggregate-failure return it falls short of
`total_tasks` by the number of failed tasks (each failed task performs no
increment). -/
theorem progress_accounting (pairs : List TradingPair)
    (ics : List IntervalConfig)
    (envf : TradingPair → IntervalConfig → Int × TaskEnv) :
    (∀ k, (((task_results pairs ics envf).take k).map
        TaskEffects.completedDelta).sum
        ≤ (execute (.ok pairs) ics envf).total_tasks) ∧
    (execute (.ok pairs) ics envf).completed_tasks
      ≤ (execute (.ok pairs) ics envf).total_tasks ∧
    (execute (.ok pairs) ics envf).completed_tasks
      = ((task_results pairs ics envf).filter
          fun eff => !eff.failed).length ∧
    ((execute (.ok pairs) ics envf).result = .ok () →
      (execute (.ok pairs) ics envf).completed_tasks
        = (execute (.ok pairs) ics envf).total_tasks) := by
  have hall : ∀ eff ∈ task_results pairs ics envf,
      eff.completedDelta = if eff.failed then 0 else 1 := by
    intro eff he
    obtain ⟨p, ic, n, e, rfl⟩ := mem_task_results he
    exact task_delta_failed p ic n e
  have hle1 : ∀ eff ∈ task_results pairs ics envf,
      eff.completedDelta ≤ 1 := by
    intro eff he
    rw [hall eff he]
    split <;> omega
  have hlen := task_results_length pairs ics envf
  rw [execute_ok]
  refine ⟨?_, ?_, sum_delta_eq _ hall, ?_⟩
  · intro k
    calc (((task_results pairs ics envf).take k).map
          TaskEffects.completedDelta).sum
        ≤ ((task_results pairs ics envf).take k).length :=
          sum_delta_le _ fun eff he =>
            hle1 eff (List.take_subset k (task_results pairs ics envf) he)
      _ ≤ (task_results pairs ics envf).length :=
          (List.take_sublist k (task_results pairs ics envf)).length_le
      _ = pairs.length * ics.length := hlen
  · calc ((task_results pairs ics envf).map
          TaskEffects.completedDelta).sum
        ≤ (task_results pairs ics envf).length := sum_delta_le _ hle1
      _ = pairs.length * ics.length := hlen
  · intro hres
    have hempty : ((task_results pairs ics envf).filter
        TaskEffects.failed).isEmpty = true := by
      by_contra hc
      rw [if_neg hc] at hres
      exact Except.noConfusion hres
    have hnil : (task_results pairs ics envf).filter TaskEffects.failed
        = [] := List.isEmpty_iff.mp hempty
    have hfail : ∀ eff ∈ task_results pairs ics envf,
        eff.failed = false := by
      intro eff he
      cases hb : eff.failed with
      | false => rfl
      | true =>
        exact absurd hb (List.filter_eq_nil_iff.mp hnil eff he)
    have hfiltall : ((task_results pairs ics envf).filter
        fun eff => !eff.failed) = task_results pairs ics envf :=
      List.filter_eq_self.mpr fun eff he => by rw [hfail eff he]; rfl
    calc ((task_results pairs ics envf).map
          TaskEffects.completedDelta).sum
        = ((task_results pairs ics envf).filter
            fun eff => !eff.failed).length := sum_delta_eq _ hall
      _ = (task_results pairs ics envf).length := by rw [hfiltall]
      _ = pairs.length * ics.length := hlen

theorem progress_accounting_witness :
    (execute (.ok [samplePair]) [{ interval := "1h", duration := 10 }]
        (fun _ _ => (100, allOkEnv))).completed_tasks
      = (execute (.ok [samplePair]) [{ interval := "1h", duration := 10 }]
        (fun _ _ => (100, allOkEnv))).total_tasks :=
  (progress_accounting [samplePair] [{ interval := "1h", duration := 10 }]
      (fun _ _ => (100, allOkEnv))).2.2.2 rfl

/-! ## Rate limiter -/

lemma acquireIter_true {rl : RateLimiter} {now : Nat}
    (h : (rl.acquireIter now).2 = true) :
    0 < (rl.refillCheck now).tokens ∧
    (rl.acquireIter now).1.tokens + 1 = (rl.refillCheck now).tokens := by
  by_cases h0 : 0 < (rl.refillCheck now).tokens
  · refine ⟨h0, ?_⟩
    simp only [RateLimiter.acquireIter, if_pos h0]
    omega
  · exact absurd h (by simp [RateLimiter.acquireIter, h0])

lemma acquireLoop_consumes : ∀ (nows : List Nat) (rl rl2 : RateLimiter),
    RateLimiter.acquireLoop rl nows = some rl2 →
    ∃ (rlp : RateLimiter) (np : Nat), 0 < (rlp.refillCheck np).tokens ∧
      rlp.acquireIter np = (rl2, true) ∧
      rl2.tokens + 1 = (rlp.refillCheck np).tokens
  | [], rl, rl2, h => by simp [RateLimiter.acquireLoop] at h
  | n :: rest, rl, rl2, h => by
    simp only [RateLimiter.acquireLoop] at h
    by_cases hb : (rl.acquireIter n).2 = true
    · rw [if_pos hb] at h
      injection h with h1
      refine ⟨rl, n, (acquireIter_true hb).1, ?_, ?_⟩
      · rw [← h1, ← hb]
      · have h2 := (acquireIter_true hb).2
        rw [h1] at h2
        exact h2
    · rw [if_neg hb] at h
      exact acquireLoop_consumes rest _ rl2 h

/-- C7: in each `acquire()` loop iteration, whenever at least
`refill_interval` has elapsed since `last_refill`, the tokens are reset to
the capacity (`tokens_per_refill`) and `last_refill` is stamped with the
current time; an iteration returns exactly when a token is available after
the refill check, in which case the compare-and-swap decrements the count
by exactly one from a positive value; a non-returning iteration consumes
nothing; and whenever the whole `acquire()` loop returns, its final
iteration performed such a decrement — `acquire()` never returns without
consuming a token. -/
theorem rate_limiter_acquire_spec (rl : RateLimiter) (now : Nat)
    (nows : List Nat) (rl2 : RateLimiter) :
    (rl.refill_interval ≤ now - rl.last_refill →
      (rl.refillCheck now).tokens = rl.tokens_per_refill ∧
      (rl.refillCheck now).last_refill = now) ∧
    ((rl.acquireIter now).2 = true →
      0 < (rl.refillCheck now).tokens ∧
      (rl.acquireIter now).1.tokens + 1 = (rl.refillCheck now).tokens) ∧
    ((rl.acquireIter now).2 = false →
      (rl.acquireIter now).1 = rl.refillCheck now ∧
      (rl.refillCheck now).tokens = 0) ∧
    (RateLimiter.acquireLoop rl nows = some rl2 →
      ∃ (rlp : RateLimiter) (np : Nat), 0 < (rlp.refillCheck np).tokens ∧
        rlp.acquireIter np = (rl2, true) ∧
        rl2.tokens + 1 = (rlp.refillCheck np).tokens) := by
  refine ⟨?_, fun h => acquireIter_true h, ?_,
    fun h => acquireLoop_consumes nows rl rl2 h⟩
  · intro h
    simp [RateLimiter.refillCheck, h]
  · intro h
    by_cases h0 : 0 < (rl.refillCheck now).tokens
    · exact absurd h (by simp [RateLimiter.acquireIter, h0])
    · refine ⟨?_, by omega⟩
      simp [RateLimiter.acquireIter, h0]

theorem rate_limiter_acquire_spec_witness :
    ((RateLimiter.new 2 0).refill_interval
        ≤ 60 - (RateLimiter.new 2 0).last_refill →
      ((RateLimiter.new 2 0).refillCheck 60).tokens
        = (RateLimiter.new 2 0).tokens_per_refill ∧
      ((RateLimiter.new 2 0).refillCheck 60).last_refill = 60) ∧
    (((RateLimiter.new 2 0).acquireIter 60).2 = true →
      0 < ((RateLimiter.new 2 0).refillCheck 60).tokens ∧
      ((RateLimiter.new 2 0).acquireIter 60).1.tokens + 1
        = ((RateLimiter.new 2 0).refillCheck 60).tokens) ∧
    (((RateLimiter.new 2 0).acquireIter 60).2 = false →
      ((RateLimiter.new 2 0).acquireIter 60).1
        = (RateLimiter.new 2 0).refillCheck 60 ∧
      ((RateLimiter.new 2 0).refillCheck 60).tokens = 0) ∧
    (RateLimiter.acquireLoop (RateLimiter.new 2 0) [0]
        = some { tokens := 1, last_refill := 0, refill_interval := 60,
                 tokens_per_refill := 2 } →
      ∃ (rlp : RateLimiter) (np : Nat), 0 < (rlp.refillCheck np).tokens ∧
        rlp.acquireIter np
          = ({ tokens := 1, last_refill := 0, refill_interval := 60,
               tokens_per_refill := 2 }, true) ∧
        (1 : Nat) + 1 = (rlp.refillCheck np).tokens) :=
  rate_limiter_acquire_spec (RateLimiter.new 2 0) 60 [0]
    { tokens := 1, last_refill := 0, refill_interval := 60,
      tokens_per_refill := 2 }
